import Mathlib

/-!
Verification of the e-procurement workflow backend (`main.py`, `schemas.py`).

The development shallowly embeds the workflow handlers — purchase-request
submission and decision, purchase-order creation, goods-receipt creation,
item creation and the notification endpoints — over an explicit document
store state.  Python floats are modelled as rationals (`Rat`), MongoDB
ObjectIds as natural numbers, and raw id strings arriving in requests (or
stored inside documents) as `RId`, which either parses to an ObjectId or is
malformed.  Each handler returns the final store state together with an
`Except` result: an exception raised mid-handler aborts the request but all
store writes performed before it persist, exactly as with an external
database and no transactions.
-/

/-- Quantities: Python `float` fields (`qty`, `qty_received`, `on_hand`)
are modelled as exact rationals. -/
abbrev Qty := Rat

/-- A raw identifier string as it appears in a request body or a stored
document field: either it parses to an ObjectId (modelled as a `Nat`) or it
is malformed (carrying the offending string). -/
inductive RId where
  | ok (n : Nat)
  | bad (s : String)
deriving DecidableEq, Repr

/-- An HTTP error (`HTTPException(status_code, detail)`). -/
structure Err where
  status : Nat
  detail : String
deriving DecidableEq, Repr

/-- `oid` from `main.py`: parse a raw id string into an ObjectId, raising a
400 error on malformed input. -/
def oid : RId → Except Err Nat
  | RId.ok n => Except.ok n
  | RId.bad _ => Except.error ⟨400, "Invalid id format"⟩

/-- The string rendering of a raw id (used in notification messages). -/
def ridStr : RId → String
  | RId.ok n => toString n
  | RId.bad s => s

/-- First-match lookup in an association list, modelling `find_one` by key. -/
def findAssoc {κ α : Type} [DecidableEq κ] : List (κ × α) → κ → Option α
  | [], _ => none
  | (k', v) :: rest, k => if k' = k then some v else findAssoc rest k

/-- Update the first entry with the given key, modelling `update_one`
(no-op when no document matches). -/
def updateAssoc {κ α : Type} [DecidableEq κ] : List (κ × α) → κ → (α → α) → List (κ × α)
  | [], _, _ => []
  | (k', v) :: rest, k, f => if k' = k then (k', f v) :: rest else (k', v) :: updateAssoc rest k f

-- ---------- Stored documents (collections of `schemas.py`) ----------

structure UserDoc where
  name : String
  email : String
  role : String
  department : Option String := none
  manager_id : Option RId := none
  is_active : Bool := true
deriving DecidableEq, Repr

structure SupplierDoc where
  name : String
  code : String
  contact_email : Option String := none
  phone : Option String := none
  address : Option String := none
deriving DecidableEq, Repr

structure ItemDoc where
  sku : String
  name : String
  uom : String
  description : Option String := none
  category : Option String := none
deriving DecidableEq, Repr

/-- A purchase-request line, as received in `PRLineIn` and stored verbatim
(`model_dump`) inside the PR document. -/
structure PRLineIn where
  sku : String
  name : String
  qty : Qty
  uom : String
deriving DecidableEq, Repr

/-- A stored purchase request.  Fields written only by later `$set` updates
(`approved_by`, `approved_at`, `rejected_reason`, `po_id`) are optional. -/
structure PRDoc where
  employee_id : RId
  manager_id : RId
  reason : Option String := none
  lines : List PRLineIn
  status : String
  approved_by : Option RId := none
  approved_at : Option Nat := none
  rejected_reason : Option String := none
  po_id : Option Nat := none
deriving DecidableEq, Repr

structure POLine where
  sku : String
  name : String
  qty : Qty
  uom : String
deriving DecidableEq, Repr

structure PODoc where
  pr_id : RId
  supplier_id : RId
  lines : List POLine
  status : String
deriving DecidableEq, Repr

/-- A goods-receipt line, as received in `GRLineIn` and stored verbatim. -/
structure GRLineIn where
  sku : String
  name : String
  qty_received : Qty
  uom : String
deriving DecidableEq, Repr

structure GRDoc where
  po_id : RId
  lines : List GRLineIn
deriving DecidableEq, Repr

structure InvDoc where
  on_hand : Qty
  uom : String
deriving DecidableEq, Repr

structure NotifDoc where
  to_user_id : Option RId
  role : Option String
  title : String
  message : String
  link_type : Option String
  link_id : Option RId
  read : Bool
  updated_at : Option Nat := none
deriving DecidableEq, Repr

/-- The document store: one association list per collection (inventory is
keyed by SKU, everything else by ObjectId), a fresh-id counter for newly
created documents, and the current clock reading. -/
structure DB where
  users : List (Nat × UserDoc) := []
  suppliers : List (Nat × SupplierDoc) := []
  items : List (Nat × ItemDoc) := []
  inventory : List (String × InvDoc) := []
  prs : List (Nat × PRDoc) := []
  pos : List (Nat × PODoc) := []
  grs : List (Nat × GRDoc) := []
  notifs : List (Nat × NotifDoc) := []
  nextId : Nat := 0
  now : Nat := 0
deriving DecidableEq, Repr

def findUser (s : DB) (i : Nat) : Option UserDoc := findAssoc s.users i

def findSupplier (s : DB) (i : Nat) : Option SupplierDoc := findAssoc s.suppliers i

def findInv (s : DB) (sku : String) : Option InvDoc := findAssoc s.inventory sku

def findPR (s : DB) (i : Nat) : Option PRDoc := findAssoc s.prs i

def findPO (s : DB) (i : Nat) : Option PODoc := findAssoc s.pos i

def findNotif (s : DB) (i : Nat) : Option NotifDoc := findAssoc s.notifs i

/-- `find_one({"_id": i, "role": role})` on the user collection: first
document matching both the id and the role. -/
def findUserRole (s : DB) (i : Nat) (role : String) : Option UserDoc :=
  (s.users.find? (fun p => decide (p.1 = i) && decide (p.2.role = role))).map (fun p => p.2)

-- ---------- Document creation (external store) ----------

/-- Modelled from the spec: the external document store's create operation
(`create_document` from the repository's `database` module, which is not
among the given sources).  Per §2 of the spec the store offers "generic
persistence — create, find-by-filter, find-by-id, update-by-id,
upsert-by-filter with increment"; creation persists the document under a
fresh identifier and returns that identifier.  One monomorphic helper per
collection. -/
def createPRDoc (s : DB) (doc : PRDoc) : Nat × DB :=
  (s.nextId, { s with prs := s.prs ++ [(s.nextId, doc)], nextId := s.nextId + 1 })

def createPODoc (s : DB) (doc : PODoc) : Nat × DB :=
  (s.nextId, { s with pos := s.pos ++ [(s.nextId, doc)], nextId := s.nextId + 1 })

def createGRDoc (s : DB) (doc : GRDoc) : Nat × DB :=
  (s.nextId, { s with grs := s.grs ++ [(s.nextId, doc)], nextId := s.nextId + 1 })

def createNotifDoc (s : DB) (doc : NotifDoc) : Nat × DB :=
  (s.nextId, { s with notifs := s.notifs ++ [(s.nextId, doc)], nextId := s.nextId + 1 })

def createItemDoc (s : DB) (doc : ItemDoc) : Nat × DB :=
  (s.nextId, { s with items := s.items ++ [(s.nextId, doc)], nextId := s.nextId + 1 })

/-- The inventory upsert of `create_gr`:
`update_one({"sku": sku}, {"$inc": {"on_hand": q}, "$setOnInsert": {"uom": uom}}, upsert=True)`. -/
def upsertInc (inv : List (String × InvDoc)) (sku : String) (q : Qty) (uom : String) :
    List (String × InvDoc) :=
  match findAssoc inv sku with
  | some _ => updateAssoc inv sku (fun d => { d with on_hand := d.on_hand + q })
  | none => inv ++ [(sku, ⟨q, uom⟩)]

/-- The per-line inventory update loop of `create_gr`. -/
def inv_apply (inv : List (String × InvDoc)) (lines : List GRLineIn) :
    List (String × InvDoc) :=
  lines.foldl (fun acc l => upsertInc acc l.sku l.qty_received l.uom) inv

-- ---------- Request models ----------

structure ItemIn where
  sku : String
  name : String
  uom : String
  description : Option String := none
  category : Option String := none
deriving DecidableEq, Repr

structure PRCreate where
  employee_id : RId
  manager_id : RId
  reason : Option String := none
  lines : List PRLineIn
deriving DecidableEq, Repr

structure PRDecision where
  manager_id : RId
  approve : Bool
  rejected_reason : Option String := none
deriving DecidableEq, Repr

structure POCreate where
  pr_id : RId
  supplier_id : RId
deriving DecidableEq, Repr

structure GRCreate where
  po_id : RId
  lines : List GRLineIn
deriving DecidableEq, Repr

-- ---------- Handlers (transcribed from `main.py`) ----------

/-- `POST /items` (`create_item`): persist the item, then lazily create the
inventory record for the SKU with `on_hand = 0` when absent. -/
def create_item (s : DB) (item : ItemIn) : Nat × DB :=
  let r1 := createItemDoc s ⟨item.sku, item.name, item.uom, item.description, item.category⟩
  let item_id := r1.1
  let s1 := r1.2
  match findInv s1 item.sku with
  | some _ => (item_id, s1)
  | none => (item_id, { s1 with inventory := s1.inventory ++ [(item.sku, ⟨0, item.uom⟩)] })

/-- `POST /prs` (`create_pr`): validate employee and manager by id and role,
persist the PR with status "submitted", notify the manager. -/
def create_pr (s : DB) (pr : PRCreate) : DB × Except Err Nat :=
  match oid pr.employee_id with
  | Except.error e => (s, Except.error e)
  | Except.ok empId =>
    match findUserRole s empId "employee" with
    | none => (s, Except.error ⟨400, "Invalid employee_id"⟩)
    | some _ =>
      match oid pr.manager_id with
      | Except.error e => (s, Except.error e)
      | Except.ok mgrId =>
        match findUserRole s mgrId "manager" with
        | none => (s, Except.error ⟨400, "Invalid manager_id"⟩)
        | some _ =>
          let prDoc : PRDoc :=
            { employee_id := pr.employee_id, manager_id := pr.manager_id,
              reason := pr.reason, lines := pr.lines, status := "submitted" }
          let r1 := createPRDoc s prDoc
          let pr_id := r1.1
          let s1 := r1.2
          let s2 := (createNotifDoc s1
            { to_user_id := some pr.manager_id, role := none,
              title := "New Purchase Request",
              message := "PR " ++ toString pr_id ++ " awaiting your approval",
              link_type := some "PR", link_id := some (RId.ok pr_id), read := false }).2
          (s2, Except.ok pr_id)

/-- `POST /prs/{pr_id}/decision` (`decide_pr`): 404 when the PR is absent,
403 when the caller is not the assigned manager, 400 when the PR is not
pending; otherwise set status approved/rejected and notify. -/
def decide_pr (s : DB) (pr_id : RId) (decision : PRDecision) : DB × Except Err Bool :=
  match oid pr_id with
  | Except.error e => (s, Except.error e)
  | Except.ok i =>
    match findPR s i with
    | none => (s, Except.error ⟨404, "PR not found"⟩)
    | some prDoc =>
      if prDoc.manager_id ≠ decision.manager_id then
        (s, Except.error ⟨403, "Manager not assigned to this PR"⟩)
      else if prDoc.status ∉ (["submitted"] : List String) then
        (s, Except.error ⟨400, "PR is not pending approval"⟩)
      else if decision.approve then
        let s1 := { s with prs := updateAssoc s.prs i (fun d =>
          { d with status := "approved", approved_by := some decision.manager_id,
                   approved_at := some s.now }) }
        let s2 := (createNotifDoc s1
          { to_user_id := none, role := some "purchasing", title := "PR Approved",
            message := "PR " ++ ridStr pr_id ++ " is ready for PO",
            link_type := some "PR", link_id := some pr_id, read := false }).2
        (s2, Except.ok true)
      else
        let s1 := { s with prs := updateAssoc s.prs i (fun d =>
          { d with status := "rejected",
                   rejected_reason := some (decision.rejected_reason.getD "") }) }
        let s2 := (createNotifDoc s1
          { to_user_id := some prDoc.employee_id, role := none, title := "PR Rejected",
            message := "PR " ++ ridStr pr_id ++ " was rejected",
            link_type := some "PR", link_id := some pr_id, read := false }).2
        (s2, Except.ok true)

/-- The field-wise line copy performed by `create_po`
(`{"sku": l["sku"], "name": l["name"], "qty": l["qty"], "uom": l["uom"]}`). -/
def poLineOfPRLine (l : PRLineIn) : POLine := ⟨l.sku, l.name, l.qty, l.uom⟩

/-- `POST /pos` (`create_po`): require an existing, approved PR and an
existing supplier; snapshot-copy the PR lines into a new PO with status
"sent"; flip the PR to "ordered"; notify the employee. -/
def create_po (s : DB) (data : POCreate) : DB × Except Err Nat :=
  match oid data.pr_id with
  | Except.error e => (s, Except.error e)
  | Except.ok prId =>
    match findPR s prId with
    | none => (s, Except.error ⟨404, "PR not found"⟩)
    | some prDoc =>
      if prDoc.status ≠ "approved" then (s, Except.error ⟨400, "PR is not approved"⟩)
      else
        match oid data.supplier_id with
        | Except.error e => (s, Except.error e)
        | Except.ok supId =>
          match findSupplier s supId with
          | none => (s, Except.error ⟨400, "Invalid supplier_id"⟩)
          | some _ =>
            let poDoc : PODoc :=
              { pr_id := data.pr_id, supplier_id := data.supplier_id,
                lines := prDoc.lines.map poLineOfPRLine, status := "sent" }
            let r1 := createPODoc s poDoc
            let po_id := r1.1
            let s1 := r1.2
            let s2 := { s1 with prs := updateAssoc s1.prs prId (fun d =>
              { d with status := "ordered", po_id := some po_id }) }
            let s3 := (createNotifDoc s2
              { to_user_id := some prDoc.employee_id, role := none, title := "PO Created",
                message := "PO " ++ toString po_id ++ " created from your PR",
                link_type := some "PO", link_id := some (RId.ok po_id), read := false }).2
            (s3, Except.ok po_id)

/-- `total_po_qty` in `create_gr`: sum of `qty` over the PO's lines. -/
def po_ordered_total (po : PODoc) : Qty := (po.lines.map (fun l => l.qty)).sum

/-- `total_received` in `create_gr`: sum of `qty_received` over the lines of
every goods receipt stored for the given raw `po_id`. -/
def po_received_total (s : DB) (po_raw : RId) : Qty :=
  ((s.grs.filter (fun p => decide (p.2.po_id = po_raw))).map
    (fun p => (p.2.lines.map (fun l => l.qty_received)).sum)).sum

/-- `POST /grs` (`create_gr`): require an existing PO; persist the GR;
upsert-increment inventory per line; re-derive the PO status from the full
GR aggregation; then resolve the PO's source PR for the notification — a
missing PR silently skips the notification, while a malformed `pr_id`
raises from `oid` after the mutations already happened. -/
def create_gr (s : DB) (data : GRCreate) : DB × Except Err Nat :=
  match oid data.po_id with
  | Except.error e => (s, Except.error e)
  | Except.ok poId =>
    match findPO s poId with
    | none => (s, Except.error ⟨404, "PO not found"⟩)
    | some po =>
      let r1 := createGRDoc s { po_id := data.po_id, lines := data.lines }
      let gr_id := r1.1
      let s1 := r1.2
      let s2 := { s1 with inventory := inv_apply s1.inventory data.lines }
      let new_status :=
        if po_received_total s2 data.po_id ≥ po_ordered_total po then "received"
        else "partially_received"
      let s3 := { s2 with pos := updateAssoc s2.pos poId (fun d => { d with status := new_status }) }
      match oid po.pr_id with
      | Except.error e => (s3, Except.error e)
      | Except.ok prId =>
        match findPR s3 prId with
        | none => (s3, Except.ok gr_id)
        | some pr =>
          let s4 := (createNotifDoc s3
            { to_user_id := some pr.employee_id, role := none, title := "Goods Received",
              message := "GR " ++ toString gr_id ++ " recorded and inventory updated",
              link_type := some "GR", link_id := some (RId.ok gr_id), read := false }).2
          (s4, Except.ok gr_id)

/-- `POST /notifications/{notif_id}/read` (`mark_notification_read`):
update-by-id setting `read` and `updated_at`, succeeding whether or not the
notification exists. -/
def mark_notification_read (s : DB) (notif_id : RId) : DB × Except Err Bool :=
  match oid notif_id with
  | Except.error e => (s, Except.error e)
  | Except.ok i =>
    ({ s with notifs := updateAssoc s.notifs i (fun d =>
        { d with read := true, updated_at := some s.now }) }, Except.ok true)

/-- Modelled from the spec: the internal PR-line mutation probe of property
P3 ("mutating the source PR's line data (impossible via public API, but as
an internal invariant)") — a direct document-store update of a purchase
request's `lines` field, which no handler of `main.py` performs. -/
def set_pr_lines (s : DB) (pr_id : Nat) (newLines : List PRLineIn) : DB :=
  { s with prs := updateAssoc s.prs pr_id (fun d => { d with lines := newLines }) }

-- ---------- Derived notions used by the claims ----------

/-- The allowed status edges of the purchase-request state machine. -/
def prEdge (a b : String) : Prop :=
  (a = "submitted" ∧ b = "approved") ∨ (a = "submitted" ∧ b = "rejected") ∨
    (a = "approved" ∧ b = "ordered")

instance (a b : String) : Decidable (prEdge a b) := by
  unfold prEdge; infer_instance

/-- The four workflow operations of the claims. -/
inductive Op where
  | submitPR (pr : PRCreate)
  | decidePR (pr_id : RId) (d : PRDecision)
  | makePO (d : POCreate)
  | makeGR (d : GRCreate)
deriving Repr

/-- The state reached by one workflow operation (result value discarded). -/
def applyOp (s : DB) : Op → DB
  | Op.submitPR pr => (create_pr s pr).1
  | Op.decidePR pr_id d => (decide_pr s pr_id d).1
  | Op.makePO d => (create_po s d).1
  | Op.makeGR d => (create_gr s d).1

/-- The user lookup of `create_pr` as a boolean: the raw id parses and a
user with that id and role exists (active or not). -/
def user_role_ok (s : DB) (rid : RId) (role : String) : Bool :=
  match oid rid with
  | Except.error _ => false
  | Except.ok i => (findUserRole s i role).isSome

/-- A notification targeted at a single user (role unset). -/
def targetedNotif (nd : NotifDoc) : Prop := nd.to_user_id ≠ none ∧ nd.role = none

instance (nd : NotifDoc) : Decidable (targetedNotif nd) := by
  unfold targetedNotif; infer_instance

/-- A role broadcast to purchasing (user unset). -/
def purchasingBroadcast (nd : NotifDoc) : Prop :=
  nd.to_user_id = none ∧ nd.role = some "purchasing"

instance (nd : NotifDoc) : Decidable (purchasingBroadcast nd) := by
  unfold purchasingBroadcast; infer_instance

def uEmpDemo : UserDoc := { name := "E", email := "e@x.com", role := "employee" }

def uMgrDemo : UserDoc := { name := "M", email := "m@x.com", role := "manager" }

def prSubDemo : PRDoc :=
  { employee_id := RId.ok 0, manager_id := RId.ok 1,
    lines := [⟨"A1", "Widget", 5, "pcs"⟩], status := "submitted" }

def dbC1 : DB := { users := [(0, uEmpDemo), (1, uMgrDemo)], prs := [(2, prSubDemo)], nextId := 3 }

def opC1 : Op := Op.decidePR (RId.ok 2) { manager_id := RId.ok 1, approve := true }

def prApprovedDemo : PRDoc :=
  { prSubDemo with status := "approved", approved_by := some (RId.ok 1), approved_at := some 0 }

def prApprC6 : PRDoc :=
  { employee_id := RId.ok 5, manager_id := RId.ok 1,
    lines := [⟨"A1", "Widget", 5, "pcs"⟩], status := "approved",
    approved_by := some (RId.ok 1), approved_at := some 0 }

def dbC6 : DB := { prs := [(0, prApprC6)], nextId := 1 }

def decC6 : PRDecision := { manager_id := RId.ok 1, approve := false }

def ndC9 : NotifDoc :=
  { to_user_id := some (RId.ok 1), role := none, title := "New Purchase Request",
    message := "PR 0 awaiting your approval", link_type := some "PR",
    link_id := some (RId.ok 0), read := false }

def dbC9 : DB := { notifs := [(7, ndC9)], nextId := 8, now := 42 }

def prInC10 : PRCreate :=
  { employee_id := RId.ok 0, manager_id := RId.ok 1,
    lines := [⟨"A1", "Widget", 5, "pcs"⟩] }

def ndC10 : NotifDoc :=
  { to_user_id := some (RId.ok 1), role := none, title := "New Purchase Request",
    message := "PR 3 awaiting your approval", link_type := some "PR",
    link_id := some (RId.ok 3), read := false }

def prApprC7 : PRDoc :=
  { employee_id := RId.ok 9, manager_id := RId.ok 8,
    lines := [⟨"A1", "Widget", 5, "pcs"⟩], status := "approved" }

def dbC7 : DB :=
  { suppliers := [(1, { name := "S", code := "S1" })], prs := [(0, prApprC7)], nextId := 2 }

def poInC7 : POCreate := { pr_id := RId.ok 0, supplier_id := RId.ok 1 }

def uEmpInactiveC5 : UserDoc :=
  { name := "E", email := "e@x.com", role := "employee", is_active := false }

def uMgrC5 : UserDoc := { name := "M", email := "m@x.com", role := "manager" }

def dbC5 : DB := { users := [(1, uEmpInactiveC5), (2, uMgrC5)], nextId := 3 }

def prInC5 : PRCreate :=
  { employee_id := RId.ok 1, manager_id := RId.ok 2, lines := [⟨"A1", "Widget", 5, "pcs"⟩] }

def prInC5w : PRCreate :=
  { employee_id := RId.ok 99, manager_id := RId.ok 2, lines := [⟨"A1", "Widget", 5, "pcs"⟩] }

-- ---------- C2: PO status derivation ----------

/-- The store state of `create_gr` after the GR insert and the inventory
upserts, just before the PO-status update: the state over which the code
aggregates `total_received`. -/
def gr_mid (s : DB) (data : GRCreate) : DB :=
  { s with grs := s.grs ++ [(s.nextId, ⟨data.po_id, data.lines⟩)],
           inventory := inv_apply s.inventory data.lines,
           nextId := s.nextId + 1 }

def poC2 : PODoc :=
  { pr_id := RId.ok 50, supplier_id := RId.ok 60,
    lines := [⟨"A1", "Widget", 10, "pcs"⟩], status := "sent" }

def dbC2 : DB := { pos := [(0, poC2)], nextId := 1 }

def grInC2 : GRCreate := { po_id := RId.ok 0, lines := [] }

def poC2w : PODoc :=
  { pr_id := RId.ok 50, supplier_id := RId.ok 60,
    lines := [⟨"A1", "Widget", 10, "pcs"⟩], status := "sent" }

def dbC2w : DB := { pos := [(0, poC2w)], nextId := 1 }

def grInC2w : GRCreate := { po_id := RId.ok 0, lines := [⟨"A1", "Widget", 10, "pcs"⟩] }

-- ---------- C3: inventory conservation and non-negativity ----------

def poC3 : PODoc :=
  { pr_id := RId.ok 50, supplier_id := RId.ok 60,
    lines := [⟨"A1", "Widget", 10, "pcs"⟩], status := "sent" }

def dbC3a : DB := { pos := [(0, poC3)], nextId := 1 }

def dbC3 : DB := (create_item dbC3a { sku := "A1", name := "Widget", uom := "pcs" }).2

def grInC3 : GRCreate := { po_id := RId.ok 0, lines := [⟨"A1", "Widget", -5, "pcs"⟩] }

-- ---------- C4: PR line validation ----------

def uEmpC4 : UserDoc := { name := "E", email := "e@x.com", role := "employee" }

def uMgrC4 : UserDoc := { name := "M", email := "m@x.com", role := "manager" }

def dbC4 : DB := { users := [(0, uEmpC4), (1, uMgrC4)], nextId := 2 }

def prInC4 : PRCreate :=
  { employee_id := RId.ok 0, manager_id := RId.ok 1, lines := [⟨"A1", "Widget", 0, "pcs"⟩] }

def prInC4empty : PRCreate :=
  { employee_id := RId.ok 0, manager_id := RId.ok 1, lines := [] }

def poC8bad : PODoc :=
  { pr_id := RId.bad "notanid", supplier_id := RId.ok 60,
    lines := [⟨"A1", "Widget", 10, "pcs"⟩], status := "sent" }

def dbC8 : DB := { pos := [(0, poC8bad)], nextId := 1 }

def grInC8 : GRCreate := { po_id := RId.ok 0, lines := [⟨"A1", "Widget", 4, "pcs"⟩] }

def poC8w : PODoc :=
  { pr_id := RId.ok 99, supplier_id := RId.ok 60,
    lines := [⟨"A1", "Widget", 10, "pcs"⟩], status := "sent" }

def dbC8w : DB := { pos := [(0, poC8w)], nextId := 1 }

def grInC8w : GRCreate := { po_id := RId.ok 0, lines := [⟨"A1", "Widget", 4, "pcs"⟩] }

-- ---------- Theorems ----------

-- ---------- Store lemmas ----------

theorem findAssoc_update_self {κ α : Type} [DecidableEq κ] (l : List (κ × α)) (k : κ)
    (f : α → α) : findAssoc (updateAssoc l k f) k = (findAssoc l k).map f := by
  induction l with
  | nil => simp [findAssoc, updateAssoc]
  | cons hd tl ih =>
    obtain ⟨k', v⟩ := hd
    by_cases h : k' = k
    · simp [findAssoc, updateAssoc, h]
    · simp [findAssoc, updateAssoc, h, ih]

theorem findAssoc_update_ne {κ α : Type} [DecidableEq κ] (l : List (κ × α)) (k k₂ : κ)
    (f : α → α) (h : k₂ ≠ k) : findAssoc (updateAssoc l k f) k₂ = findAssoc l k₂ := by
  induction l with
  | nil => simp [findAssoc, updateAssoc]
  | cons hd tl ih =>
    obtain ⟨k', v⟩ := hd
    simp only [updateAssoc]
    by_cases hk : k' = k
    · have h1 : ¬ k' = k₂ := fun hc => h (by rw [← hc, hk])
      simp only [if_pos hk, findAssoc, if_neg h1]
    · by_cases h2 : k' = k₂
      · simp only [if_neg hk, findAssoc, if_pos h2]
      · simp only [if_neg hk, findAssoc, if_neg h2, ih]

theorem findAssoc_append_left {κ α : Type} [DecidableEq κ] (l₁ l₂ : List (κ × α)) (k : κ)
    (v : α) (h : findAssoc l₁ k = some v) : findAssoc (l₁ ++ l₂) k = some v := by
  induction l₁ with
  | nil => simp [findAssoc] at h
  | cons hd tl ih =>
    obtain ⟨k', w⟩ := hd
    by_cases hk : k' = k
    · simp [findAssoc, hk] at h ⊢; exact h
    · simp [findAssoc, hk] at h ⊢; exact ih h

theorem updateAssoc_not_found {κ α : Type} [DecidableEq κ] (l : List (κ × α)) (k : κ)
    (f : α → α) (h : findAssoc l k = none) : updateAssoc l k f = l := by
  induction l with
  | nil => simp [updateAssoc]
  | cons hd tl ih =>
    obtain ⟨k', v⟩ := hd
    by_cases hk : k' = k
    · simp [findAssoc, hk] at h
    · simp [findAssoc, hk] at h
      simp [updateAssoc, hk, ih h]

-- ---------- Per-operation purchase-request status lemmas ----------

theorem create_pr_status_step (s : DB) (pr : PRCreate) (pid : Nat) (d d' : PRDoc)
    (h : findPR s pid = some d) (h' : findPR (create_pr s pr).1 pid = some d') :
    d' = d := by
  have h0 : findAssoc s.prs pid = some d := h
  unfold create_pr at h'
  split at h'
  · have h2 : findAssoc s.prs pid = some d' := h'
    rw [h2] at h0; exact Option.some_inj.mp h0
  · split at h'
    · have h2 : findAssoc s.prs pid = some d' := h'
      rw [h2] at h0; exact Option.some_inj.mp h0
    · split at h'
      · have h2 : findAssoc s.prs pid = some d' := h'
        rw [h2] at h0; exact Option.some_inj.mp h0
      · split at h'
        · have h2 : findAssoc s.prs pid = some d' := h'
          rw [h2] at h0; exact Option.some_inj.mp h0
        · have h2 : findAssoc (s.prs ++ [(s.nextId,
            ({ employee_id := pr.employee_id, manager_id := pr.manager_id,
               reason := pr.reason, lines := pr.lines, status := "submitted" } : PRDoc))])
              pid = some d' := h'
          rw [findAssoc_append_left _ _ _ _ h0] at h2
          exact (Option.some_inj.mp h2).symm

theorem decide_pr_status_step (s : DB) (rid : RId) (dec : PRDecision) (pid : Nat)
    (d d' : PRDoc) (h : findPR s pid = some d)
    (h' : findPR (decide_pr s rid dec).1 pid = some d') :
    d'.status = d.status ∨ prEdge d.status d'.status := by
  have h0 : findAssoc s.prs pid = some d := h
  unfold decide_pr at h'
  split at h'
  · left
    have h2 : findAssoc s.prs pid = some d' := h'
    rw [h2] at h0; rw [Option.some_inj.mp h0]
  · rename_i i hoid
    split at h'
    · left
      have h2 : findAssoc s.prs pid = some d' := h'
      rw [h2] at h0; rw [Option.some_inj.mp h0]
    · rename_i prDoc hfind
      split at h'
      · left
        have h2 : findAssoc s.prs pid = some d' := h'
        rw [h2] at h0; rw [Option.some_inj.mp h0]
      · split at h'
        · left
          have h2 : findAssoc s.prs pid = some d' := h'
          rw [h2] at h0; rw [Option.some_inj.mp h0]
        · rename_i hmgr hstat
          have hsub : prDoc.status = "submitted" := List.mem_singleton.mp (not_not.mp hstat)
          have hf2 : findAssoc s.prs i = some prDoc := hfind
          split at h'
          · have h2 : findAssoc (updateAssoc s.prs i (fun dd =>
                { dd with status := "approved", approved_by := some dec.manager_id,
                          approved_at := some s.now })) pid = some d' := h'
            by_cases hpi : pid = i
            · subst hpi
              rw [findAssoc_update_self, hf2] at h2
              have h3 : d' = ({ prDoc with status := "approved", approved_by := some dec.manager_id, approved_at := some s.now } : PRDoc) := (Option.some_inj.mp h2).symm
              have hd : d = prDoc := by rw [h0] at hf2; exact Option.some_inj.mp hf2
              right; left
              refine ⟨by rw [hd]; exact hsub, ?_⟩
              rw [h3]
            · rw [findAssoc_update_ne _ _ _ _ hpi] at h2
              left; rw [h2] at h0; rw [Option.some_inj.mp h0]
          · have h2 : findAssoc (updateAssoc s.prs i (fun dd =>
                { dd with status := "rejected",
                          rejected_reason := some (dec.rejected_reason.getD "") })) pid =
                some d' := h'
            by_cases hpi : pid = i
            · subst hpi
              rw [findAssoc_update_self, hf2] at h2
              have h3 : d' = ({ prDoc with status := "rejected", rejected_reason := some (dec.rejected_reason.getD "") } : PRDoc) := (Option.some_inj.mp h2).symm
              have hd : d = prDoc := by rw [h0] at hf2; exact Option.some_inj.mp hf2
              right; right; left
              refine ⟨by rw [hd]; exact hsub, ?_⟩
              rw [h3]
            · rw [findAssoc_update_ne _ _ _ _ hpi] at h2
              left; rw [h2] at h0; rw [Option.some_inj.mp h0]

theorem create_po_status_step (s : DB) (data : POCreate) (pid : Nat) (d d' : PRDoc)
    (h : findPR s pid = some d) (h' : findPR (create_po s data).1 pid = some d') :
    d'.status = d.status ∨ prEdge d.status d'.status := by
  have h0 : findAssoc s.prs pid = some d := h
  unfold create_po at h'
  split at h'
  · left
    have h2 : findAssoc s.prs pid = some d' := h'
    rw [h2] at h0; rw [Option.some_inj.mp h0]
  · rename_i prId hoid
    split at h'
    · left
      have h2 : findAssoc s.prs pid = some d' := h'
      rw [h2] at h0; rw [Option.some_inj.mp h0]
    · rename_i prDoc hfind
      split at h'
      · left
        have h2 : findAssoc s.prs pid = some d' := h'
        rw [h2] at h0; rw [Option.some_inj.mp h0]
      · rename_i hstat
        have happ : prDoc.status = "approved" := not_not.mp hstat
        have hf2 : findAssoc s.prs prId = some prDoc := hfind
        split at h'
        · left
          have h2 : findAssoc s.prs pid = some d' := h'
          rw [h2] at h0; rw [Option.some_inj.mp h0]
        · split at h'
          · left
            have h2 : findAssoc s.prs pid = some d' := h'
            rw [h2] at h0; rw [Option.some_inj.mp h0]
          · have h2 : findAssoc (updateAssoc s.prs prId (fun dd =>
                { dd with status := "ordered", po_id := some s.nextId })) pid =
                some d' := h'
            by_cases hpi : pid = prId
            · subst hpi
              rw [findAssoc_update_self, hf2] at h2
              have h3 : d' = ({ prDoc with status := "ordered", po_id := some s.nextId } : PRDoc) := (Option.some_inj.mp h2).symm
              have hd : d = prDoc := by rw [h0] at hf2; exact Option.some_inj.mp hf2
              right; right; right
              refine ⟨by rw [hd]; exact happ, ?_⟩
              rw [h3]
            · rw [findAssoc_update_ne _ _ _ _ hpi] at h2
              left; rw [h2] at h0; rw [Option.some_inj.mp h0]

theorem create_gr_prs (s : DB) (data : GRCreate) : (create_gr s data).1.prs = s.prs := by
  unfold create_gr
  split
  · rfl
  · split
    · rfl
    · dsimp only
      split
      · rfl
      · split
        · rfl
        · rfl

/-- C1: along any workflow operation (PR submission, PR decision, PO
creation, GR creation) from any store state, a purchase request present
before and after either keeps its status or moves along one of the edges
submitted→approved, submitted→rejected, approved→ordered; in particular no
operation moves a PR out of "rejected" or "ordered" and no other transition
is reachable, at any point of any operation sequence. -/
theorem pr_status_monotone (s : DB) (op : Op) (pid : Nat) (d d' : PRDoc)
    (h : findPR s pid = some d) (h' : findPR (applyOp s op) pid = some d') :
    d'.status = d.status ∨ prEdge d.status d'.status := by
  cases op with
  | submitPR pr =>
    left
    rw [create_pr_status_step s pr pid d d' h h']
  | decidePR rid dec => exact decide_pr_status_step s rid dec pid d d' h h'
  | makePO data => exact create_po_status_step s data pid d d' h h'
  | makeGR data =>
    left
    rw [show findPR (applyOp s (Op.makeGR data)) pid = findPR s pid from by
      simp only [applyOp, findPR, create_gr_prs]] at h'
    rw [h'] at h
    rw [Option.some_inj.mp h]

theorem pr_status_monotone_witness :
    prApprovedDemo.status = prSubDemo.status ∨ prEdge prSubDemo.status prApprovedDemo.status :=
  pr_status_monotone dbC1 opC1 2 prSubDemo prApprovedDemo (by decide) (by decide)

-- ---------- C6: decision conflict ----------

/-- C6: a decision call on a PR that is not in status "submitted", made by
the assigned manager, fails with the 400 conflict error and leaves the whole
store (in particular the PR document) unchanged; consequently, after any
successful decision, a second decision call by the assigned manager on the
same PR always fails with the same conflict error and changes nothing. -/
theorem decide_pr_conflict (s : DB) (rid : RId) (dec : PRDecision) (n : Nat) (prDoc : PRDoc)
    (h1 : oid rid = Except.ok n) (h2 : findPR s n = some prDoc)
    (h3 : prDoc.manager_id = dec.manager_id) :
    (prDoc.status ≠ "submitted" →
      decide_pr s rid dec = (s, Except.error ⟨400, "PR is not pending approval"⟩)) ∧
    (∀ s₁ r₁, decide_pr s rid dec = (s₁, Except.ok r₁) →
      ∀ dec₂ : PRDecision, dec₂.manager_id = dec.manager_id →
        decide_pr s₁ rid dec₂ = (s₁, Except.error ⟨400, "PR is not pending approval"⟩)) := by
  have hrid : rid = RId.ok n := by
    cases rid with
    | ok m =>
      have : m = n := by
        have h1' : (Except.ok m : Except Err Nat) = Except.ok n := h1
        exact Except.ok.inj h1'
      rw [this]
    | bad s0 =>
      exact absurd h1 (by simp [oid])
  subst hrid
  constructor
  · intro hst
    have hne : prDoc.status ∉ (["submitted"] : List String) := by
      simp only [List.mem_singleton]; exact hst
    simp only [decide_pr, oid, h2]
    rw [if_neg (not_not_intro h3), if_pos hne]
  · intro s₁ r₁ hs dec₂ hm2
    simp only [decide_pr, oid, h2] at hs
    rw [if_neg (not_not_intro h3)] at hs
    by_cases hsub : prDoc.status ∉ (["submitted"] : List String)
    · rw [if_pos hsub] at hs
      simp at hs
    · rw [if_neg hsub] at hs
      by_cases hap : dec.approve = true
      · rw [if_pos hap] at hs
        have hprs : updateAssoc s.prs n (fun dd =>
            { dd with status := "approved", approved_by := some dec.manager_id,
                      approved_at := some s.now }) = s₁.prs :=
          congrArg (fun p => p.1.prs) hs
        have hf : findPR s₁ n = some ({ prDoc with status := "approved", approved_by := some dec.manager_id, approved_at := some s.now } : PRDoc) := by
          show findAssoc s₁.prs n = _
          rw [← hprs, findAssoc_update_self,
            show findAssoc s.prs n = some prDoc from h2]
          rfl
        simp only [decide_pr, oid, hf]
        rw [if_neg (not_not_intro (h3.trans hm2.symm))]
        rw [if_pos (by decide : ("approved" : String) ∉ (["submitted"] : List String))]
      · rw [if_neg hap] at hs
        have hprs : updateAssoc s.prs n (fun dd =>
            { dd with status := "rejected",
                      rejected_reason := some (dec.rejected_reason.getD "") }) = s₁.prs :=
          congrArg (fun p => p.1.prs) hs
        have hf : findPR s₁ n = some ({ prDoc with status := "rejected", rejected_reason := some (dec.rejected_reason.getD "") } : PRDoc) := by
          show findAssoc s₁.prs n = _
          rw [← hprs, findAssoc_update_self,
            show findAssoc s.prs n = some prDoc from h2]
          rfl
        simp only [decide_pr, oid, hf]
        rw [if_neg (not_not_intro (h3.trans hm2.symm))]
        rw [if_pos (by decide : ("rejected" : String) ∉ (["submitted"] : List String))]

theorem decide_pr_conflict_witness :
    (prApprC6.status ≠ "submitted" →
      decide_pr dbC6 (RId.ok 0) decC6 = (dbC6, Except.error ⟨400, "PR is not pending approval"⟩)) ∧
    (∀ s₁ r₁, decide_pr dbC6 (RId.ok 0) decC6 = (s₁, Except.ok r₁) →
      ∀ dec₂ : PRDecision, dec₂.manager_id = decC6.manager_id →
        decide_pr s₁ (RId.ok 0) dec₂ = (s₁, Except.error ⟨400, "PR is not pending approval"⟩)) :=
  decide_pr_conflict dbC6 (RId.ok 0) decC6 0 prApprC6 rfl (by decide) rfl

-- ---------- C9: mark notification read ----------

/-- C9: for every well-formed notification id the mark-read endpoint
returns success whether or not a notification with that id exists; when it
does not exist the store is left untouched (no error is raised), and when it
exists the notification gets `read := true` and `updated_at := now`. -/
theorem mark_read_total (s : DB) (nid : RId) (i : Nat) (h : oid nid = Except.ok i) :
    (mark_notification_read s nid).2 = Except.ok true ∧
    (findNotif s i = none → (mark_notification_read s nid).1 = s) ∧
    (∀ nd, findNotif s i = some nd →
      findNotif (mark_notification_read s nid).1 i =
        some { nd with read := true, updated_at := some s.now }) := by
  have hrid : nid = RId.ok i := by
    cases nid with
    | ok m =>
      have h1' : (Except.ok m : Except Err Nat) = Except.ok i := h
      rw [Except.ok.inj h1']
    | bad s0 => exact absurd h (by simp [oid])
  subst hrid
  refine ⟨rfl, ?_, ?_⟩
  · intro hnone
    show ({ s with notifs := updateAssoc s.notifs i (fun d => { d with read := true, updated_at := some s.now }) } : DB) = s
    rw [updateAssoc_not_found _ _ _ hnone]
  · intro nd hsome
    show findAssoc (updateAssoc s.notifs i (fun d => { d with read := true, updated_at := some s.now })) i = _
    rw [findAssoc_update_self, show findAssoc s.notifs i = some nd from hsome]
    rfl

theorem mark_read_total_witness :
    (mark_notification_read dbC9 (RId.ok 7)).2 = Except.ok true ∧
    (findNotif dbC9 7 = none → (mark_notification_read dbC9 (RId.ok 7)).1 = dbC9) ∧
    (∀ nd, findNotif dbC9 7 = some nd →
      findNotif (mark_notification_read dbC9 (RId.ok 7)).1 7 =
        some { nd with read := true, updated_at := some dbC9.now }) :=
  mark_read_total dbC9 (RId.ok 7) 7 rfl

-- ---------- C10: notification shape ----------

theorem mem_append_single {α : Type} (l : List α) (x p : α) (hp : p ∈ l ++ [x]) :
    p ∈ l ∨ p = x := by
  rcases List.mem_append.mp hp with h | h
  · left; exact h
  · right; exact List.mem_singleton.mp h

/-- C10: every notification created by the four workflow operations is
created with `read = false` and exactly one recipient field set: PR
submission, PR rejection, PO creation and GR creation target a single user
(`to_user_id` non-null, `role` null), while PR approval broadcasts to the
"purchasing" role (`to_user_id` null). -/
theorem notif_wellformed (s : DB) (p : Nat × NotifDoc) :
    (∀ pr, p ∈ (create_pr s pr).1.notifs →
      p ∈ s.notifs ∨ (p.2.read = false ∧ targetedNotif p.2)) ∧
    (∀ rid dec, p ∈ (decide_pr s rid dec).1.notifs →
      p ∈ s.notifs ∨ (p.2.read = false ∧
        (if dec.approve then purchasingBroadcast p.2 else targetedNotif p.2))) ∧
    (∀ data, p ∈ (create_po s data).1.notifs →
      p ∈ s.notifs ∨ (p.2.read = false ∧ targetedNotif p.2)) ∧
    (∀ data, p ∈ (create_gr s data).1.notifs →
      p ∈ s.notifs ∨ (p.2.read = false ∧ targetedNotif p.2)) := by
  refine ⟨?_, ?_, ?_, ?_⟩
  · intro pr hp
    unfold create_pr at hp
    split at hp
    · left; exact hp
    · split at hp
      · left; exact hp
      · split at hp
        · left; exact hp
        · split at hp
          · left; exact hp
          · rcases mem_append_single _ _ _ hp with hl | he
            · left; exact hl
            · right
              rw [he]
              exact ⟨rfl, fun hc => Option.noConfusion hc, rfl⟩
  · intro rid dec hp
    unfold decide_pr at hp
    split at hp
    · left; exact hp
    · split at hp
      · left; exact hp
      · split at hp
        · left; exact hp
        · split at hp
          · left; exact hp
          · split at hp
            · rename_i hap
              rcases mem_append_single _ _ _ hp with hl | he
              · left; exact hl
              · right
                rw [he, if_pos hap]
                exact ⟨rfl, rfl, rfl⟩
            · rename_i hap
              rcases mem_append_single _ _ _ hp with hl | he
              · left; exact hl
              · right
                rw [he, if_neg hap]
                exact ⟨rfl, fun hc => Option.noConfusion hc, rfl⟩
  · intro data hp
    unfold create_po at hp
    split at hp
    · left; exact hp
    · split at hp
      · left; exact hp
      · split at hp
        · left; exact hp
        · split at hp
          · left; exact hp
          · split at hp
            · left; exact hp
            · rcases mem_append_single _ _ _ hp with hl | he
              · left; exact hl
              · right
                rw [he]
                exact ⟨rfl, fun hc => Option.noConfusion hc, rfl⟩
  · intro data hp
    unfold create_gr at hp
    split at hp
    · left; exact hp
    · split at hp
      · left; exact hp
      · dsimp only at hp
        split at hp
        · left; exact hp
        · split at hp
          · left; exact hp
          · rcases mem_append_single _ _ _ hp with hl | he
            · left; exact hl
            · right
              rw [he]
              exact ⟨rfl, fun hc => Option.noConfusion hc, rfl⟩

theorem notif_wellformed_witness :
    (4, ndC10) ∈ dbC1.notifs ∨
      (((4, ndC10) : Nat × NotifDoc).2.read = false ∧
        targetedNotif ((4, ndC10) : Nat × NotifDoc).2) :=
  (notif_wellformed dbC1 (4, ndC10)).1 prInC10 (by decide)

-- ---------- C7: PO snapshot isolation ----------

/-- C7: a successfully created purchase order stores an element-wise copy
(sku, name, qty, uom) of the source purchase request's lines as of creation
time, and the copy is independent: a later direct mutation of any PR's line
data (the internal probe `set_pr_lines`) leaves the purchase-order
collection — and hence the PO's lines — entirely unchanged. -/
theorem po_snapshot_isolation (s : DB) (data : POCreate) (s' : DB) (po_id : Nat)
    (n : Nat) (prDoc : PRDoc)
    (h : create_po s data = (s', Except.ok po_id))
    (hn : oid data.pr_id = Except.ok n) (hpr : findPR s n = some prDoc) :
    (po_id, ({ pr_id := data.pr_id, supplier_id := data.supplier_id, lines := prDoc.lines.map poLineOfPRLine, status := "sent" } : PODoc)) ∈ s'.pos ∧
    ∀ pid newLines, (set_pr_lines s' pid newLines).pos = s'.pos := by
  constructor
  · simp only [create_po, hn, hpr] at h
    split at h
    · simp at h
    · split at h
      · simp at h
      · split at h
        · simp at h
        · have hid : Except.ok (ε := Err) s.nextId = Except.ok po_id :=
            congrArg (fun p => p.2) h
          have hid2 : s.nextId = po_id := Except.ok.inj hid
          have hsX : _ = s' := congrArg (fun p => p.1) h
          rw [← hsX, ← hid2]
          exact List.mem_append_right _ (List.mem_singleton.mpr rfl)
  · intro pid newLines
    rfl

theorem po_snapshot_isolation_witness :
    (2, ({ pr_id := poInC7.pr_id, supplier_id := poInC7.supplier_id, lines := prApprC7.lines.map poLineOfPRLine, status := "sent" } : PODoc)) ∈ (create_po dbC7 poInC7).1.pos ∧
    ∀ pid newLines,
      (set_pr_lines (create_po dbC7 poInC7).1 pid newLines).pos = (create_po dbC7 poInC7).1.pos :=
  po_snapshot_isolation dbC7 poInC7 (create_po dbC7 poInC7).1 2 0 prApprC7 rfl rfl (by decide)

-- ---------- C5: user validation on PR submission ----------

theorem oid_error_status (rid : RId) (e : Err) (h : oid rid = Except.error e) :
    e.status = 400 := by
  cases rid with
  | ok n => exact absurd h (by simp [oid])
  | bad s0 =>
    have h2 : (⟨400, "Invalid id format"⟩ : Err) = e := Except.error.inj h
    rw [← h2]

/-- C5 (amended): PR submission succeeds exactly when the employee id
resolves to a user with role "employee" and the manager id to a user with
role "manager" — the `is_active` flag is never consulted by these lookups —
and every failing submission returns a 400 client error and leaves the
store untouched, so no PR and no notification is persisted. -/
theorem create_pr_validation (s : DB) (pr : PRCreate) :
    ((user_role_ok s pr.employee_id "employee" && user_role_ok s pr.manager_id "manager") = true →
      ∃ i, (create_pr s pr).2 = Except.ok i) ∧
    ((user_role_ok s pr.employee_id "employee" && user_role_ok s pr.manager_id "manager") = false →
      (create_pr s pr).1 = s ∧ ∃ e, (create_pr s pr).2 = Except.error e ∧ e.status = 400) := by
  constructor
  · intro hok
    cases hoidE : oid pr.employee_id with
    | error e => simp [user_role_ok, hoidE] at hok
    | ok i =>
      cases hfe : findUserRole s i "employee" with
      | none => simp [user_role_ok, hoidE, hfe] at hok
      | some u =>
        cases hoidM : oid pr.manager_id with
        | error e => simp [user_role_ok, hoidM] at hok
        | ok j =>
          cases hfm : findUserRole s j "manager" with
          | none => simp [user_role_ok, hoidM, hfm] at hok
          | some v =>
            refine ⟨s.nextId, ?_⟩
            simp only [create_pr, hoidE, hfe, hoidM, hfm]
            rfl
  · intro hfail
    cases hoidE : oid pr.employee_id with
    | error e =>
      refine ⟨?_, e, ?_, oid_error_status _ _ hoidE⟩
      · simp only [create_pr, hoidE]
      · simp only [create_pr, hoidE]
    | ok i =>
      cases hfe : findUserRole s i "employee" with
      | none =>
        refine ⟨?_, ⟨400, "Invalid employee_id"⟩, ?_, rfl⟩
        · simp only [create_pr, hoidE, hfe]
        · simp only [create_pr, hoidE, hfe]
      | some u =>
        cases hoidM : oid pr.manager_id with
        | error e =>
          refine ⟨?_, e, ?_, oid_error_status _ _ hoidM⟩
          · simp only [create_pr, hoidE, hfe, hoidM]
          · simp only [create_pr, hoidE, hfe, hoidM]
        | ok j =>
          cases hfm : findUserRole s j "manager" with
          | none =>
            refine ⟨?_, ⟨400, "Invalid manager_id"⟩, ?_, rfl⟩
            · simp only [create_pr, hoidE, hfe, hoidM, hfm]
            · simp only [create_pr, hoidE, hfe, hoidM, hfm]
          | some v => simp [user_role_ok, hoidE, hfe, hoidM, hfm] at hfail

/-- C5 counterexample: the referenced employee exists with role "employee"
but is inactive, yet the PR submission succeeds — `create_pr` filters only
on id and role, never on `is_active`, so no ValidationError is raised. -/
theorem create_pr_inactive_accepted :
    findUser dbC5 1 = some uEmpInactiveC5 ∧ uEmpInactiveC5.is_active = false ∧
    uEmpInactiveC5.role = "employee" ∧ (create_pr dbC5 prInC5).2 = Except.ok 3 :=
  ⟨rfl, rfl, rfl, rfl⟩

theorem create_pr_validation_witness :
    (create_pr dbC5 prInC5w).1 = dbC5 ∧
    ∃ e, (create_pr dbC5 prInC5w).2 = Except.error e ∧ e.status = 400 :=
  (create_pr_validation dbC5 prInC5w).2 (by decide)

theorem create_gr_success_state (s : DB) (data : GRCreate) (n : Nat) (po : PODoc)
    (hn : data.po_id = RId.ok n) (hpo : findPO s n = some po) :
    (create_gr s data).1.pos = updateAssoc s.pos n (fun d => ({ d with status := if po_received_total (gr_mid s data) data.po_id ≥ po_ordered_total po then "received" else "partially_received" } : PODoc)) ∧
    (create_gr s data).1.grs = (gr_mid s data).grs ∧
    (create_gr s data).1.inventory = inv_apply s.inventory data.lines ∧
    (create_gr s data).1.prs = s.prs := by
  have hoid : oid data.po_id = Except.ok n := by rw [hn]; rfl
  refine ⟨?_, ?_, ?_, ?_⟩
  · by_cases hc : po_received_total (gr_mid s data) data.po_id ≥ po_ordered_total po
    · rw [if_pos hc]
      simp only [create_gr, hoid, hpo]
      repeat' split
      all_goals first | rfl | exact absurd hc (by assumption)
    · rw [if_neg hc]
      simp only [create_gr, hoid, hpo]
      repeat' split
      all_goals first | rfl | exact absurd (by assumption) hc
  all_goals
    simp only [create_gr, hoid, hpo]
    repeat' split
    all_goals rfl

/-- C2 (amended): after any goods-receipt creation whose `po_id` parses to
an existing purchase order, the PO's status is re-derived as "received" iff
the cumulative received quantity R (over all GRs for this PO, including the
one just posted) is at least the ordered total T, and otherwise as
"partially_received" — even when R = 0; "sent" is only the initial status
from PO creation and is never re-derived. -/
theorem gr_status_derivation (s : DB) (data : GRCreate) (n : Nat) (po : PODoc)
    (hn : data.po_id = RId.ok n) (hpo : findPO s n = some po) :
    ∃ po', findPO (create_gr s data).1 n = some po' ∧ po'.lines = po.lines ∧
      (po'.status = "received" ∨ po'.status = "partially_received") ∧
      (po'.status = "received" ↔
        po_received_total (create_gr s data).1 data.po_id ≥ po_ordered_total po') := by
  obtain ⟨hpos, hgrs, hinv, hprs⟩ := create_gr_success_state s data n po hn hpo
  have hRR : po_received_total (create_gr s data).1 data.po_id =
      po_received_total (gr_mid s data) data.po_id := by
    unfold po_received_total
    rw [hgrs]
  have hfind : findPO (create_gr s data).1 n = some ({ po with status := if po_received_total (gr_mid s data) data.po_id ≥ po_ordered_total po then "received" else "partially_received" } : PODoc) := by
    show findAssoc (create_gr s data).1.pos n = _
    rw [hpos, findAssoc_update_self, show findAssoc s.pos n = some po from hpo]
    rfl
  refine ⟨_, hfind, rfl, ?_, ?_⟩
  · by_cases hc : po_received_total (gr_mid s data) data.po_id ≥ po_ordered_total po
    · left; exact if_pos hc
    · right; exact if_neg hc
  · show (if po_received_total (gr_mid s data) data.po_id ≥ po_ordered_total po then "received" else "partially_received") = "received" ↔ po_received_total (create_gr s data).1 data.po_id ≥ po_ordered_total po
    rw [hRR]
    by_cases hc : po_received_total (gr_mid s data) data.po_id ≥ po_ordered_total po
    · rw [if_pos hc]; exact iff_of_true rfl hc
    · rw [if_neg hc]; exact iff_of_false (by decide) hc

/-- C2 counterexample: posting a goods receipt with an empty line list
(accepted by the API, R stays 0) against a PO with ordered total 10 sets the
PO status to "partially_received", where the claim's derivation (R = 0, so
neither "received" nor R > 0) would require "sent". -/
theorem gr_zero_receipt_not_sent :
    (create_gr dbC2 grInC2).2 = Except.ok 1 ∧
    po_received_total (create_gr dbC2 grInC2).1 (RId.ok 0) = 0 ∧
    po_ordered_total poC2 = 10 ∧
    findPO (create_gr dbC2 grInC2).1 0 = some { poC2 with status := "partially_received" } ∧
    ("partially_received" : String) ≠ "sent" := by
  refine ⟨?_, ?_, ?_, ?_, by decide⟩ <;>
    norm_num [create_gr, oid, findPO, findPR, findAssoc, updateAssoc, inv_apply,
      po_ordered_total, po_received_total, createGRDoc, createNotifDoc,
      dbC2, grInC2, poC2, List.sum_cons, List.sum_nil]

theorem gr_status_derivation_witness :
    ∃ po', findPO (create_gr dbC2w grInC2w).1 0 = some po' ∧ po'.lines = poC2w.lines ∧
      (po'.status = "received" ∨ po'.status = "partially_received") ∧
      (po'.status = "received" ↔
        po_received_total (create_gr dbC2w grInC2w).1 grInC2w.po_id ≥ po_ordered_total po') :=
  gr_status_derivation dbC2w grInC2w 0 poC2w rfl rfl

/-- C3: the failing input evaluated — after creating the item (inventory
baseline 0), a goods receipt whose single line carries `qty_received = -5`
is accepted by `create_gr` (the API model puts no `gt=0` bound on
`qty_received`, unlike the repository's `schemas.py`), and the resulting
`on_hand` equals the sum of posted quantities, -5, which is negative. -/
theorem inventory_negative_on_negative_receipt :
    (create_gr dbC3 grInC3).2 = Except.ok 2 ∧
    findInv dbC3 "A1" = some ⟨0, "pcs"⟩ ∧
    findInv (create_gr dbC3 grInC3).1 "A1" = some ⟨-5, "pcs"⟩ ∧
    ((-5 : Qty) < 0) := by
  refine ⟨?_, ?_, ?_, by norm_num⟩ <;>
    norm_num [create_gr, create_item, oid, findPO, findPR, findInv, findAssoc, updateAssoc,
      upsertInc, inv_apply, po_ordered_total, po_received_total, createGRDoc, createNotifDoc,
      createItemDoc, dbC3, dbC3a, grInC3, poC3, List.sum_cons, List.sum_nil]

/-- C4: the failing inputs evaluated — a PR submission whose single line has
`qty = 0` (and likewise one with an empty line list) is accepted by
`create_pr` with a 200-style `{id}` result and the PR persisted as
"submitted"; no line validation happens, contradicting both the claim and
the `gt=0` bound documented in `schemas.py`. -/
theorem pr_line_validation_missing :
    prInC4.lines = [⟨"A1", "Widget", 0, "pcs"⟩] ∧
    (create_pr dbC4 prInC4).2 = Except.ok 2 ∧
    findPR (create_pr dbC4 prInC4).1 2 =
      some { employee_id := RId.ok 0, manager_id := RId.ok 1, reason := none,
             lines := [⟨"A1", "Widget", 0, "pcs"⟩], status := "submitted" } ∧
    (create_pr dbC4 prInC4empty).2 = Except.ok 2 :=
  ⟨rfl, rfl, by decide, rfl⟩

-- ---------- C8: GR creation with a dangling PR reference ----------

/-- C8 (amended): during goods-receipt creation against an existing PO, the
notification step resolves the PO's `pr_id`; when that id is well-formed but
no PR exists, the call succeeds with the GR persisted, inventory updated,
PO status recomputed and no notification; when the id is malformed, the GR
is still persisted, inventory updated and PO status recomputed, but `oid`
raises and the call fails with that 400 error — the lookup failure is
swallowed only in the well-formed case. -/
theorem gr_pr_lookup_behavior (s : DB) (data : GRCreate) (n : Nat) (po : PODoc)
    (s' : DB) (r : Except Err Nat)
    (hn : oid data.po_id = Except.ok n) (hpo : findPO s n = some po)
    (hres : create_gr s data = (s', r)) :
    (∀ m, oid po.pr_id = Except.ok m → findPR s m = none →
      r = Except.ok s.nextId ∧ s'.notifs = s.notifs ∧
      (s.nextId, ({ po_id := data.po_id, lines := data.lines } : GRDoc)) ∈ s'.grs ∧
      s'.inventory = inv_apply s.inventory data.lines) ∧
    (∀ e, oid po.pr_id = Except.error e →
      r = Except.error e ∧ s'.notifs = s.notifs ∧
      (s.nextId, ({ po_id := data.po_id, lines := data.lines } : GRDoc)) ∈ s'.grs ∧
      s'.inventory = inv_apply s.inventory data.lines) := by
  simp only [create_gr, hn, hpo] at hres
  constructor
  · intro m hm hnone
    simp only [hm] at hres
    split at hres
    · rename_i heq
      have h1 : _ = s' := congrArg (fun p => p.1) hres
      have h2 : Except.ok (ε := Err) s.nextId = r := congrArg (fun p => p.2) hres
      refine ⟨h2.symm, ?_, ?_, ?_⟩
      · rw [← h1]; rfl
      · rw [← h1]
        exact List.mem_append_right _ (List.mem_singleton.mpr rfl)
      · rw [← h1]; rfl
    · rename_i pr heq
      have hcontra : findPR s m = some pr := heq
      rw [hcontra] at hnone
      exact Option.noConfusion hnone
  · intro e he
    simp only [he] at hres
    have h1 : _ = s' := congrArg (fun p => p.1) hres
    have h2 : Except.error (α := Nat) e = r := congrArg (fun p => p.2) hres
    refine ⟨h2.symm, ?_, ?_, ?_⟩
    · rw [← h1]; rfl
    · rw [← h1]
      exact List.mem_append_right _ (List.mem_singleton.mpr rfl)
    · rw [← h1]; rfl

/-- C8 counterexample: against a PO whose stored `pr_id` is a malformed id
string — which certainly does not resolve to a PurchaseRequest — the GR
creation does NOT succeed: `oid` raises inside the notification step, so the
call surfaces the 400 "Invalid id format" error even though the GR was
persisted, inventory incremented and the PO status recomputed. -/
theorem gr_malformed_prid_not_swallowed :
    (create_gr dbC8 grInC8).2 = Except.error ⟨400, "Invalid id format"⟩ ∧
    (1, ({ po_id := RId.ok 0, lines := [⟨"A1", "Widget", 4, "pcs"⟩] } : GRDoc)) ∈ (create_gr dbC8 grInC8).1.grs ∧
    findInv (create_gr dbC8 grInC8).1 "A1" = some ⟨4, "pcs"⟩ ∧
    findPO (create_gr dbC8 grInC8).1 0 = some { poC8bad with status := "partially_received" } := by
  refine ⟨?_, ?_, ?_, ?_⟩ <;>
    norm_num [create_gr, oid, findPO, findPR, findInv, findAssoc, updateAssoc, upsertInc,
      inv_apply, po_ordered_total, po_received_total, createGRDoc, createNotifDoc,
      dbC8, grInC8, poC8bad, List.sum_cons, List.sum_nil]

theorem gr_pr_lookup_behavior_witness :
    (∀ m, oid poC8w.pr_id = Except.ok m → findPR dbC8w m = none →
      (create_gr dbC8w grInC8w).2 = Except.ok dbC8w.nextId ∧
      (create_gr dbC8w grInC8w).1.notifs = dbC8w.notifs ∧
      (dbC8w.nextId, ({ po_id := grInC8w.po_id, lines := grInC8w.lines } : GRDoc)) ∈ (create_gr dbC8w grInC8w).1.grs ∧
      (create_gr dbC8w grInC8w).1.inventory = inv_apply dbC8w.inventory grInC8w.lines) ∧
    (∀ e, oid poC8w.pr_id = Except.error e →
      (create_gr dbC8w grInC8w).2 = Except.error e ∧
      (create_gr dbC8w grInC8w).1.notifs = dbC8w.notifs ∧
      (dbC8w.nextId, ({ po_id := grInC8w.po_id, lines := grInC8w.lines } : GRDoc)) ∈ (create_gr dbC8w grInC8w).1.grs ∧
      (create_gr dbC8w grInC8w).1.inventory = inv_apply dbC8w.inventory grInC8w.lines) :=
  gr_pr_lookup_behavior dbC8w grInC8w 0 poC8w (create_gr dbC8w grInC8w).1
    (create_gr dbC8w grInC8w).2 rfl rfl rfl
